import Mathlib

/-!
Verification of the ESP-WROOM-32 wifi-relay-temperature firmware
(src/ESP-WROOM-32_wifi-relay-temperature.ino).

Shallow embedding. Floating-point values are modelled by `ℚ`: every claim is
order-theoretic (strict `<` against the threshold), never about rounding, and
IEEE `<` on non-NaN floats is the usual order. The one float special value the
code manipulates, NaN (the DHT read-failure sentinel tested by `isnan`), is
modelled by `Option ℚ`: `none` is NaN, `some t` a valid reading.

The mutable globals of the sketch (lines 51-56) and the relay pin driven by
`digitalWrite` become the record `SysState`; the body of `loop()` (lines
181-210) becomes `tick`, parameterised by the sensor result of
`dht.readTemperature()`; each HTTP route handler (lines 139-175) becomes a
function returning the new state together with the response the handler sends.
-/

set_option autoImplicit false

/-- Global mutable state of the sketch (lines 51-56) plus the relay output pin
(`digitalWrite(RELAY_PIN, _)`).  `temperature : Option ℚ` models the float
global, `none` standing for NaN. -/
structure SysState where
  temperature : Option ℚ
  relayState : Bool
  manualMode : Bool
  criticalTemp : ℚ
  serialOutput : String
  relayPin : Bool
  deriving Repr, DecidableEq

/-- Initial state: globals of lines 51-55 (`temperature = 0.0`,
`relayState = false`, `manualMode = false`, `criticalTemp = 23.80`,
`serialOutput = ""`) and the `digitalWrite(RELAY_PIN, LOW)` of `setup`
(line 66). -/
def initState : SysState :=
  { temperature := some 0
    relayState := false
    manualMode := false
    criticalTemp := 23.80
    serialOutput := ""
    relayPin := false }

/-- Accumulate a run of decimal digits: returns the value read so far, the
number of digits consumed, and the remaining characters.  Helper for the
`atof` model below. -/
def digitsAux : List Char → ℕ → ℕ → ℕ × ℕ × List Char
  | c :: rest, acc, n =>
      if c.isDigit then digitsAux rest (10 * acc + (c.toNat - 48)) (n + 1)
      else (acc, n, c :: rest)
  | [], acc, n => (acc, n, [])

/-- Read an optional sign, returning the sign as `1` or `-1` and the remaining
characters. -/
def signAux : List Char → ℚ × List Char
  | '-' :: rest => (-1, rest)
  | '+' :: rest => (1, rest)
  | cs => (1, cs)

/-- Model of Arduino `String::toFloat()` (which is `atof` on the underlying
buffer, line 170 `request->getParam("temp")->value().toFloat()`): skip leading
whitespace, optional sign, decimal digits, optional fractional part, optional
decimal exponent; when no conversion can be performed the result is `0`
(the `atof` failure value).  The hexadecimal/infinity/nan forms of `strtod`
are irrelevant to the claims and omitted. -/
def atofQ (s : String) : ℚ :=
  let cs := s.toList.dropWhile (fun c => c = ' ' ∨ c = '\t' ∨ c = '\n' ∨
    c = '\r' ∨ c = '\x0b' ∨ c = '\x0c')
  let (sgn, cs) := signAux cs
  let (ip, ni, cs) := digitsAux cs 0 0
  let (fp, nf, cs) :=
    match cs with
    | '.' :: rest => digitsAux rest 0 0
    | _ => ((0 : ℕ), (0 : ℕ), cs)
  if ni = 0 ∧ nf = 0 then 0
  else
    let mant : ℚ := sgn * ((ip : ℚ) + (fp : ℚ) / (10 : ℚ) ^ nf)
    match cs with
    | c :: rest =>
        if c = 'e' ∨ c = 'E' then
          let (esgn, rest) := signAux rest
          let (ev, ne, _) := digitsAux rest 0 0
          if ne = 0 then mant
          else if esgn = 1 then mant * (10 : ℚ) ^ ev
          else mant / (10 : ℚ) ^ ev
        else mant
    | [] => mant

/-- Model of Arduino `String(float)` (used in lines 171-172, 190): `dtostrf`
with two decimal places, rounding half away from zero. -/
def fmtFloat (q : ℚ) : String :=
  let neg := q < 0
  let a := if q < 0 then -q else q
  let hundredths : ℕ := (⌊a * 100 + 1 / 2⌋).toNat
  let ip := hundredths / 100
  let fp := hundredths % 100
  (if neg then "-" else "") ++ toString ip ++ "." ++
    (if fp < 10 then "0" else "") ++ toString fp

/-- Response a route handler sends: every mutating handler calls
`request->redirect("/")`; the root route sends an HTML page. -/
inductive Response where
  | redirect (loc : String)
  | html (body : String)
  deriving Repr, DecidableEq

/-- Handler of `/toggleMode` (lines 139-143): flips `manualMode`, redirects.
`Serial.println` goes to the serial port, not to `serialOutput`. -/
def toggleModeHandler (s : SysState) : SysState × Response :=
  ({ s with manualMode := !s.manualMode }, Response.redirect "/")

/-- Handler of `/relayOn` (lines 146-154): only in manual mode it sets
`relayState`, drives the pin HIGH and writes `serialOutput`; it redirects
unconditionally. -/
def relayOnHandler (s : SysState) : SysState × Response :=
  (if s.manualMode then
      { s with relayState := true, relayPin := true,
               serialOutput := "Manual mode: Relay is ON" }
    else s,
   Response.redirect "/")

/-- Handler of `/relayOff` (lines 157-165): only in manual mode it clears
`relayState`, drives the pin LOW and writes `serialOutput`; it redirects
unconditionally. -/
def relayOffHandler (s : SysState) : SysState × Response :=
  (if s.manualMode then
      { s with relayState := false, relayPin := false,
               serialOutput := "Manual mode: Relay is OFF" }
    else s,
   Response.redirect "/")

/-- Handler of `/setCritical` (lines 168-175): when a `temp` parameter is
present (`temp = some v`) it assigns `criticalTemp = v.toFloat()` and writes
`serialOutput`; otherwise nothing changes.  It redirects unconditionally. -/
def setCriticalHandler (s : SysState) (temp : Option String) : SysState × Response :=
  (match temp with
    | some v =>
        let c := atofQ v
        { s with criticalTemp := c,
                 serialOutput := "Critical Temperature set to: " ++ fmtFloat c ++ " °C" }
    | none => s,
   Response.redirect "/")

/-- Body of `loop()` (lines 181-210), one tick: `r` is the result of
`dht.readTemperature()` (`none` = NaN).  The assignment
`temperature = dht.readTemperature()` at line 183 happens before and
independently of the mode test. -/
def tick (s : SysState) (r : Option ℚ) : SysState :=
  let s1 := { s with temperature := r }
  if s1.manualMode then s1
  else
    match s1.temperature with
    | none => { s1 with serialOutput := "Error reading temperature" }
    | some t =>
        let tempString := "Temperature: " ++ fmtFloat t ++ " °C"
        let s2 :=
          if t < s1.criticalTemp then
            { s1 with relayState := true, relayPin := true }
          else
            { s1 with relayState := false, relayPin := false }
        { s2 with serialOutput :=
            tempString ++ "<br>Relay is " ++ (if s2.relayState then "ON" else "OFF") }

/-- One operation of the system: a tick of `loop()` with a given sensor
result, or one inbound request to a mutating route (the root route `/` reads
but never writes the state). -/
inductive Op where
  | tick (r : Option ℚ)
  | toggleMode
  | relayOn
  | relayOff
  | setCritical (temp : Option String)

/-- State transition of one operation. -/
def stepOp (s : SysState) : Op → SysState
  | Op.tick r => tick s r
  | Op.toggleMode => (toggleModeHandler s).1
  | Op.relayOn => (relayOnHandler s).1
  | Op.relayOff => (relayOffHandler s).1
  | Op.setCritical temp => (setCriticalHandler s temp).1

/-- Run a list of operations from a state. -/
def runOps (s : SysState) (l : List Op) : SysState :=
  l.foldl stepOp s

/-- A state is reachable when some sequence of operations leads to it from the
startup state. -/
def Reachable (s : SysState) : Prop :=
  ∃ l : List Op, runOps initState l = s

/-- Automatic-mode invariant claimed by the spec: whenever the mode is
Automatic and `temperature` holds a valid reading, the output is on exactly
when that reading is below the threshold. -/
def autoInv (s : SysState) : Bool :=
  if s.manualMode then true
  else
    match s.temperature with
    | some t => s.relayState = decide (t < s.criticalTemp)
    | none => true


/-- C1: in Automatic mode a tick with a valid sample `t` sets the output to
`t < criticalTemp`; the comparison is strict, so `t = criticalTemp` leaves the
output off. -/
theorem C1_automatic_threshold (s : SysState) (t : ℚ) (h : s.manualMode = false) :
    (tick s (some t)).relayState = decide (t < s.criticalTemp) ∧
    (t = s.criticalTemp → (tick s (some t)).relayState = false) := by
  constructor
  · by_cases hlt : t < s.criticalTemp <;> simp [tick, h, hlt]
  · intro he
    subst he
    simp [tick, h]

/-- C1 witness: concrete instance at the startup state and sample 22. -/
theorem C1_automatic_threshold_witness :
    initState.manualMode = false ∧
    (tick initState (some 22)).relayState = decide ((22 : ℚ) < initState.criticalTemp) :=
  ⟨rfl, (C1_automatic_threshold initState 22 rfl).1⟩

/-- C6: `toggleMode` is an involution on the state, and one call changes only
`mode`: `outputState`, `temperature`, `criticalTemp` (and the status text and
the pin) are untouched. -/
theorem C6_toggleMode_involutive (s : SysState) :
    (toggleModeHandler (toggleModeHandler s).1).1 = s ∧
    (toggleModeHandler s).1.manualMode = !s.manualMode ∧
    (toggleModeHandler s).1.relayState = s.relayState ∧
    (toggleModeHandler s).1.temperature = s.temperature ∧
    (toggleModeHandler s).1.criticalTemp = s.criticalTemp ∧
    (toggleModeHandler s).1.serialOutput = s.serialOutput ∧
    (toggleModeHandler s).1.relayPin = s.relayPin := by
  simp [toggleModeHandler]

/-- C7: in Automatic mode `relayOn`/`relayOff` leave the whole state unchanged
yet still answer with a redirect; in Manual mode they set the output, drive
the pin and update the status text. -/
theorem C7_relay_handlers (s : SysState) :
    (s.manualMode = false → (relayOnHandler s).1 = s ∧ (relayOffHandler s).1 = s) ∧
    (relayOnHandler s).2 = Response.redirect "/" ∧
    (relayOffHandler s).2 = Response.redirect "/" ∧
    (s.manualMode = true →
      (relayOnHandler s).1.relayState = true ∧
      (relayOnHandler s).1.relayPin = true ∧
      (relayOnHandler s).1.serialOutput = "Manual mode: Relay is ON" ∧
      (relayOffHandler s).1.relayState = false ∧
      (relayOffHandler s).1.relayPin = false ∧
      (relayOffHandler s).1.serialOutput = "Manual mode: Relay is OFF") := by
  refine ⟨fun h => ?_, rfl, rfl, fun h => ?_⟩ <;>
    simp [relayOnHandler, relayOffHandler, h]

/-- C7 witness: concrete instances, one in Automatic mode, one in Manual. -/
theorem C7_relay_handlers_witness :
    (relayOnHandler initState).1 = initState ∧
    (relayOnHandler { initState with manualMode := true }).1.relayState = true :=
  ⟨((C7_relay_handlers initState).1 rfl).1,
   ((C7_relay_handlers { initState with manualMode := true }).2.2.2 rfl).1⟩

/-- C9: a present-but-malformed `temp` parameter sets `criticalTemp` to `0.0`
(the `toFloat`/`atof` failure value); only an absent parameter leaves the
state unchanged; in general a present parameter assigns its parse result. -/
theorem C9_malformed_param_sets_zero (s : SysState) :
    (setCriticalHandler s (some "abc")).1.criticalTemp = 0 ∧
    (setCriticalHandler s none).1 = s ∧
    (∀ v : String, (setCriticalHandler s (some v)).1.criticalTemp = atofQ v) := by
  refine ⟨?_, by simp [setCriticalHandler], fun v => by simp [setCriticalHandler]⟩
  simp only [setCriticalHandler]
  simp +decide [atofQ, digitsAux, signAux]

/-- C10: a tick never modifies the mode flag or the critical threshold,
whatever the sensor result. -/
theorem C10_tick_mode_threshold_frame (s : SysState) (r : Option ℚ) :
    (tick s r).manualMode = s.manualMode ∧ (tick s r).criticalTemp = s.criticalTemp := by
  cases r with
  | none => by_cases h : s.manualMode <;> simp [tick, h]
  | some t =>
      by_cases h : s.manualMode
      · simp [tick, h]
      · by_cases hlt : t < s.criticalTemp <;> simp [tick, h, hlt]

/-- C2 counterexample: the reachable state obtained by a tick with sample 22
followed by `/setCritical?temp=10` is in Automatic mode with the valid reading
22, yet the output is on while `22 < criticalTemp` fails — the handler does
not reconcile the output, so the claimed invariant is not preserved by every
operation. -/
theorem C2_counterexample :
    Reachable (runOps initState [Op.tick (some 22), Op.setCritical (some "10")]) ∧
    (runOps initState [Op.tick (some 22), Op.setCritical (some "10")]).manualMode = false ∧
    (runOps initState [Op.tick (some 22), Op.setCritical (some "10")]).temperature = some 22 ∧
    (runOps initState [Op.tick (some 22), Op.setCritical (some "10")]).relayState = true ∧
    ¬ ((22 : ℚ) <
        (runOps initState [Op.tick (some 22), Op.setCritical (some "10")]).criticalTemp) := by
  refine ⟨⟨[Op.tick (some 22), Op.setCritical (some "10")], rfl⟩, ?_⟩
  have h10 : atofQ "10" = 10 := by simp +decide [atofQ, digitsAux, signAux]
  refine ⟨?_, ?_, ?_, ?_⟩ <;>
    norm_num [runOps, stepOp, tick, setCriticalHandler, initState, h10]

/-- C2 (amended): the Automatic-mode invariant
`outputState = (temperature < criticalTemp)` (for a valid reading) holds after
every tick and is preserved by the `relayOn`/`relayOff` handlers; it is not
preserved by `setCritical` or `toggleMode`, which may leave it broken until
the next tick. -/
theorem C2_auto_invariant (s : SysState) :
    (∀ r : Option ℚ, autoInv (tick s r) = true) ∧
    (autoInv s = true →
      autoInv (relayOnHandler s).1 = true ∧ autoInv (relayOffHandler s).1 = true) := by
  constructor
  · intro r
    cases r with
    | none => by_cases h : s.manualMode <;> simp [tick, autoInv, h]
    | some t =>
        by_cases h : s.manualMode
        · simp [tick, autoInv, h]
        · by_cases hlt : t < s.criticalTemp <;> simp [tick, autoInv, h, hlt]
  · intro h
    by_cases hm : s.manualMode <;>
      simp_all [relayOnHandler, relayOffHandler, autoInv, hm]

/-- C2 witness: concrete instance of the amended invariant at an Automatic
state with no valid reading. -/
theorem C2_auto_invariant_witness :
    autoInv { initState with temperature := none } = true ∧
    autoInv (relayOnHandler { initState with temperature := none }).1 = true := by
  have h : autoInv { initState with temperature := none } = true := by
    simp [autoInv, initState]
  exact ⟨h, ((C2_auto_invariant { initState with temperature := none }).2 h).1⟩

/-- C3 counterexample: `/setCritical?temp=abc` does not leave `criticalTemp`
unchanged — it overwrites the default 23.8 with 0, the `toFloat` failure
value. -/
theorem C3_counterexample :
    initState.criticalTemp = 23.8 ∧
    (setCriticalHandler initState (some "abc")).1.criticalTemp = 0 ∧
    (0 : ℚ) ≠ 23.8 := by
  refine ⟨by norm_num [initState], ?_, by norm_num⟩
  simp only [setCriticalHandler]
  simp +decide [atofQ, digitsAux, signAux]

/-- C3 (amended): a parseable `temp` parameter overwrites `criticalTemp` with
the parsed value; an absent parameter is a complete no-op; a present but
non-numeric parameter sets `criticalTemp` to 0.0 (the parse-failure value);
in every case the handler answers with a redirect and surfaces no error. -/
theorem C3_setCritical_behavior (s : SysState) :
    (setCriticalHandler s (some "18.5")).1.criticalTemp = 18.5 ∧
    (setCriticalHandler s none).1 = s ∧
    (setCriticalHandler s (some "abc")).1.criticalTemp = 0 ∧
    (∀ temp : Option String, (setCriticalHandler s temp).2 = Response.redirect "/") := by
  refine ⟨?_, by simp [setCriticalHandler], ?_, fun temp => rfl⟩ <;>
    · simp only [setCriticalHandler]
      simp +decide [atofQ, digitsAux, signAux]
      try norm_num

/-- C4 counterexample: in Manual mode a FAILED sensor read still changes
`temperature` (it is overwritten with the NaN sentinel), contradicting
"they change only when the sensor read succeeds". -/
theorem C4_counterexample :
    (runOps initState [Op.toggleMode]).manualMode = true ∧
    (runOps initState [Op.toggleMode]).temperature = some 0 ∧
    (tick (runOps initState [Op.toggleMode]) none).temperature = none := by
  refine ⟨?_, ?_, ?_⟩ <;> simp [runOps, stepOp, tick, toggleModeHandler, initState]

/-- C4 (amended): in Manual mode a tick leaves `outputState`, the mode, the
threshold, the status text and the pin unchanged; `temperature` is overwritten
with the raw sensor result, on failure as well as on success. -/
theorem C4_manual_tick_frame (s : SysState) (r : Option ℚ) (h : s.manualMode = true) :
    (tick s r).relayState = s.relayState ∧
    (tick s r).manualMode = s.manualMode ∧
    (tick s r).criticalTemp = s.criticalTemp ∧
    (tick s r).serialOutput = s.serialOutput ∧
    (tick s r).relayPin = s.relayPin ∧
    (tick s r).temperature = r := by
  simp [tick, h]

/-- C4 witness: concrete instance at a Manual-mode state with a failed read. -/
theorem C4_manual_tick_frame_witness :
    ({ initState with manualMode := true } : SysState).manualMode = true ∧
    (tick { initState with manualMode := true } none).relayState =
      ({ initState with manualMode := true } : SysState).relayState :=
  ⟨rfl, (C4_manual_tick_frame { initState with manualMode := true } none rfl).1⟩

/-- C5 counterexample: after switching to Manual mode, a tick whose sensor
read fails does NOT set the status text to the error message — the error
branch only runs in Automatic mode. -/
theorem C5_counterexample :
    (runOps initState [Op.toggleMode]).manualMode = true ∧
    (tick (runOps initState [Op.toggleMode]) none).serialOutput = "" ∧
    "" ≠ "Error reading temperature" := by
  refine ⟨?_, ?_, by decide⟩ <;>
    simp [runOps, stepOp, tick, toggleModeHandler, initState]

/-- C5 (amended): on a failed sensor read, `outputState`, mode, threshold and
pin are unchanged and no actuation occurs in either mode; the status text is
set to the error message in Automatic mode and left unchanged in Manual mode;
`temperature` is overwritten with the NaN sentinel; the failure is not
latched: the next tick processes its sensor result normally. -/
theorem C5_sensor_failure_tick (s : SysState) :
    (tick s none).relayState = s.relayState ∧
    (tick s none).manualMode = s.manualMode ∧
    (tick s none).criticalTemp = s.criticalTemp ∧
    (tick s none).relayPin = s.relayPin ∧
    (tick s none).serialOutput =
      (if s.manualMode then s.serialOutput else "Error reading temperature") ∧
    (tick s none).temperature = none ∧
    (∀ t : ℚ, (tick (tick s none) (some t)).temperature = some t ∧
      (tick (tick s none) (some t)).relayState =
        (if s.manualMode then s.relayState else decide (t < s.criticalTemp))) := by
  by_cases h : s.manualMode
  · refine ⟨?_, ?_, ?_, ?_, ?_, ?_, fun t => ⟨?_, ?_⟩⟩ <;> simp [tick, h]
  · refine ⟨?_, ?_, ?_, ?_, ?_, ?_, fun t => ?_⟩ <;> try simp [tick, h]
    by_cases hlt : t < s.criticalTemp <;> simp [tick, h, hlt]

/-- C8 counterexample: from the startup state, one successful tick stores the
reading 22; the next tick fails and overwrites `temperature` with the NaN
sentinel, so `temperature` does not always hold the last successful reading. -/
theorem C8_counterexample :
    (runOps initState [Op.tick (some 22)]).temperature = some 22 ∧
    (tick (runOps initState [Op.tick (some 22)]) none).temperature = none := by
  constructor <;> norm_num [runOps, stepOp, tick, initState]

/-- C8 (amended): `temperature` holds the most recent sensor result,
successful or not: every tick overwrites it with the raw result, including
the NaN sentinel on failure. -/
theorem C8_tick_overwrites_temperature (s : SysState) (r : Option ℚ) :
    (tick s r).temperature = r := by
  cases r with
  | none => by_cases h : s.manualMode <;> simp [tick, h]
  | some t =>
      by_cases h : s.manualMode
      · simp [tick, h]
      · by_cases hlt : t < s.criticalTemp <;> simp [tick, h, hlt]
